import Mathlib

/-!
Shallow embedding of the OAK camera worker (`src/worker.py`) and proofs about
its pipeline-lifecycle core: the `Worker` thread with its `_pipeline_loop`,
the embedded `WorkerManager` watcher, the per-modality latest-frame slots
written by `_set_color_image` / `_set_depth_map` / `_set_pcd`, and the polling
accessors `get_color_image` / `get_depth_map` / `get_pcd`.

Machine integers do not overflow in the modelled code paths (byte counts and
shapes are small Python ints), so sizes and timestamps are modelled as `Nat`.
-/

namespace OakWorker

/-- `MAX_PIPELINE_FAILURES` from `worker.py`. -/
def MAX_PIPELINE_FAILURES : Nat := 3

/-- `MAX_GRPC_MESSAGE_BYTE_COUNT` from `worker.py`. -/
def MAX_GRPC_MESSAGE_BYTE_COUNT : Nat := 4194304

/-- `CapturedData`: a captured array plus the time it was captured at.
The payload type is a parameter because the three modalities store arrays of
different shapes/dtypes; `captured_at` models the `time.time()` float as an
abstract timestamp. -/
structure CapturedData (α : Type) where
  np_array : α
  captured_at : Nat
deriving DecidableEq

/-- A slot such as `Worker.color_image`: `None` or the latest captured data.
Slots start as `None` in `Worker.__init__`. -/
def Slot (α : Type) : Type := Option (CapturedData α)

/-- Publishing a frame (`self.color_image = CapturedData(arr, time.time())` and
the analogous assignments in `_set_depth_map` / `_set_pcd`): a single
whole-value replacement of the slot by a fully constructed `CapturedData`.
The previous slot contents are discarded. -/
def publish {α : Type} (_slot : Slot α) (arr : α) (t : Nat) : Slot α :=
  some ⟨arr, t⟩

/-- Reading a slot (the accessors return `self.color_image` etc. directly). -/
def readSlot {α : Type} (slot : Slot α) : Option (CapturedData α) :=
  slot

/-- A sequence of publishes applied to a slot, in order. -/
def publishSeq {α : Type} (init : Slot α) : List (α × Nat) → Slot α
  | [] => init
  | (a, t) :: fs => publishSeq (publish init a t) fs

/-- One observation made by a polling accessor at a check of its `while` loop:
the slot contents and `self.manager.running` at that instant. -/
def AccessorObs (α : Type) : Type := Option α × Bool

/-- The accessor polling loop
(`while not self.color_image and self.manager.running: await asyncio.sleep(1)`,
then `return self.color_image`), run over the sequence of states it observes at
successive checks, one list element per polling interval.  Returns
`some slotContents` when the loop exits (the value the accessor returns:
`none` is the "no frame, worker stopped" result), and `none` when the loop is
still waiting after the last supplied observation. -/
def accessorRun {α : Type} : List (AccessorObs α) → Option (Option α)
  | [] => none
  | (slot, running) :: obs =>
      if slot.isNone && running then accessorRun obs else some slot

/-- Shape and element size of the point-cloud array `packet.points`:
a 3-d numpy array with `rows × cols × ch` elements of `itemsize` bytes. -/
structure PcdArray where
  rows : Nat
  cols : Nat
  ch : Nat
  itemsize : Nat
deriving DecidableEq

/-- `packet.points.nbytes`. -/
def PcdArray.nbytes (a : PcdArray) : Nat :=
  a.rows * a.cols * a.ch * a.itemsize

/-- `arr[::2, ::2, :]`: numpy keeps every other row and column, so each of the
first two dimensions shrinks to `ceil(n / 2)`. -/
def PcdArray.subsample2 (a : PcdArray) : PcdArray :=
  { a with rows := (a.rows + 1) / 2, cols := (a.cols + 1) / 2 }

/-- The array stored by `Worker._set_pcd`: subsample once when the raw payload
exceeds `MAX_GRPC_MESSAGE_BYTE_COUNT`, otherwise keep the array unchanged. -/
def set_pcd_arr (points : PcdArray) : PcdArray :=
  if points.nbytes > MAX_GRPC_MESSAGE_BYTE_COUNT then points.subsample2 else points

/-- `Worker._set_pcd` as a whole: the `CapturedData` written to `self.pcd`. -/
def set_pcd (packetPoints : PcdArray) (t : Nat) : CapturedData PcdArray :=
  ⟨set_pcd_arr packetPoints, t⟩

/-- The 2-d shape `(rows, cols)` of a `DisparityDepthPacket.frame`. -/
structure DepthShape where
  rows : Nat
  cols : Nat
deriving DecidableEq

/-- `cv2.resize(arr, (width, height))`: OpenCV `dsize` is `(width, height)`,
and the resulting array has shape `(height, width)`. -/
def cv2_resize (_arr : DepthShape) (width height : Nat) : DepthShape :=
  ⟨height, width⟩

/-- `Worker._set_depth_map` at shape level: resize the packet frame to
`(height, width)` when its shape differs, then store it with a timestamp. -/
def set_depth_map (height width : Nat) (packetFrame : DepthShape) (t : Nat) :
    CapturedData DepthShape :=
  let arr := packetFrame
  let arr := if (arr.rows, arr.cols) ≠ (height, width) then cv2_resize arr width height else arr
  ⟨arr, t⟩

/-- Observable publish/build events of the worker, in the order they happen:
`build pcIncluded` records one execution of the pipeline-construction prefix of
`_pipeline_loop` (`_configure_color` / `_configure_stereo` / `_configure_pc`),
with `pcIncluded` true iff the point-cloud stage was created; `color`, `depth`
and `pcd` record one publish to the corresponding slot. -/
inductive PubEv where
  | build (pcIncluded : Bool)
  | color
  | depth
  | pcd
deriving DecidableEq

/-- One scheduler event driving the worker thread:
`buildFail` is an exception raised while constructing the pipeline;
`round err cAvail dAvail pAvail` is one iteration of the capture `while` loop
(`err` true means some read/transform/publish step raised; otherwise the three
flags say which modalities have a packet available this round);
`setDemand` is a consumer calling `get_pcd` between rounds (its flag-marking
prefix); `stop` is `Worker.stop()` / `WorkerManager.stop()` setting
`manager.running = False` between rounds. -/
inductive Ev where
  | buildFail
  | round (err cAvail dAvail pAvail : Bool)
  | setDemand
  | stop
deriving DecidableEq

/-- How the `while self.manager.running` capture loop of `_pipeline_loop` was
left: `exn` — an exception was raised (to be caught by the `except` clause);
`demandChange` — the `break` on `previous_get_pcd_was_invoked !=
self.get_pcd_was_invoked`; `stopped` — the `while` condition became false;
`windowEnd` — the event script ended while the loop was still running. -/
inductive ExitKind where
  | exn
  | demandChange
  | stopped
  | windowEnd
deriving DecidableEq

/-- The mutable state of one `Worker` instance shared with its embedded
`WorkerManager`: the static configuration flags, `get_pcd_was_invoked`,
`manager.running`, `manager.needs_reconfigure`, a ghost count of invocations
of the `reconfigure` factory callback, and the ghost event trace. -/
structure WState where
  user_wants_color : Bool
  user_wants_depth : Bool
  get_pcd_was_invoked : Bool
  running : Bool
  needs_reconfigure : Bool
  reconfigure_calls : Nat
  trace : List PubEv
deriving DecidableEq

/-- `Worker.__init__` (plus `WorkerManager.__init__` / `start`): slots empty,
`get_pcd_was_invoked = False`, manager running, no reconfiguration requested. -/
def initWorker (user_wants_color user_wants_depth : Bool) : WState :=
  { user_wants_color := user_wants_color
    user_wants_depth := user_wants_depth
    get_pcd_was_invoked := false
    running := true
    needs_reconfigure := false
    reconfigure_calls := 0
    trace := [] }

/-- The demand-marking prefix of `Worker.get_pcd`:
`if not self.get_pcd_was_invoked: self.get_pcd_was_invoked = True`. -/
def getPcdMark (s : WState) : WState :=
  if s.get_pcd_was_invoked = false then { s with get_pcd_was_invoked := true } else s

/-- `Worker._configure_pc`: the point-cloud component is created only when
`self.user_wants_depth and self.get_pcd_was_invoked`; otherwise the function
implicitly returns `None`. The component itself is opaque. -/
def configure_pc (s : WState) : Option Unit :=
  if s.user_wants_depth && s.get_pcd_was_invoked then some () else none

/-- One successful round of the capture loop:
`_handle_color_output` publishes a color frame when color is configured and a
packet is available from the preview queue; `_handle_depth_and_pcd_output`
calls `oak.poll()` only when depth is configured, which fires the
`_set_depth_map` callback (registered in `_configure_stereo` iff depth is
configured) and the `_set_pcd` callback (registered in `_configure_pc` iff the
point-cloud stage was built). -/
def doRound (pcIncluded : Bool) (s : WState) (cAvail dAvail pAvail : Bool) : WState :=
  let s := if s.user_wants_color && cAvail then { s with trace := s.trace ++ [PubEv.color] } else s
  let s := if s.user_wants_depth && dAvail then { s with trace := s.trace ++ [PubEv.depth] } else s
  let s := if s.user_wants_depth && pcIncluded && pAvail then { s with trace := s.trace ++ [PubEv.pcd] } else s
  s

/-- The `while self.manager.running` capture loop of `_pipeline_loop`, with
`snap` the `previous_get_pcd_was_invoked` snapshot taken right after
construction and `pcIncluded` whether `_configure_pc` built the stage.  Each
loop iteration first checks the `while` condition, then the demand-change
`break`, then processes the next scheduler event.  Returns the state, the
unconsumed events, and how the loop was left. -/
def runRounds (snap pcIncluded : Bool) : WState → List Ev → WState × List Ev × ExitKind
  | s, [] =>
      if s.running = false then (s, [], ExitKind.stopped)
      else if snap ≠ s.get_pcd_was_invoked then (s, [], ExitKind.demandChange)
      else (s, [], ExitKind.windowEnd)
  | s, ev :: rest =>
      if s.running = false then (s, ev :: rest, ExitKind.stopped)
      else if snap ≠ s.get_pcd_was_invoked then (s, ev :: rest, ExitKind.demandChange)
      else
        match ev with
        | Ev.stop => runRounds snap pcIncluded { s with running := false } rest
        | Ev.setDemand => runRounds snap pcIncluded (getPcdMark s) rest
        | Ev.buildFail => (s, rest, ExitKind.exn)
        | Ev.round err cAvail dAvail pAvail =>
            if err then (s, rest, ExitKind.exn)
            else runRounds snap pcIncluded (doRound pcIncluded s cAvail dAvail pAvail) rest

/-- The `try` body of `_pipeline_loop`: construct the pipeline (recording a
`build` event whose flag is whether `_configure_pc` created the stage), take
the `previous_get_pcd_was_invoked` snapshot, then run the capture loop.
`Except.error` carries the state and remaining events at the point where an
exception was raised (a build failure or an `exn` exit of the capture loop);
`Except.ok` is a normal return (break, stop, or end of the script). -/
def pipelineBody (s : WState) (evs : List Ev) :
    Except (WState × List Ev) (WState × List Ev × ExitKind) :=
  match evs with
  | Ev.buildFail :: rest => Except.error (s, rest)
  | _ =>
      let snap := s.get_pcd_was_invoked
      let pcIncluded := (configure_pc s).isSome
      let s1 := { s with trace := s.trace ++ [PubEv.build pcIncluded] }
      match runRounds snap pcIncluded s1 evs with
      | (s2, rest, ExitKind.exn) => Except.error (s2, rest)
      | r => Except.ok r

/-- The `except Exception` clause of `_pipeline_loop`: the local `failures`
counter (initialized to `0` at the top of the call) is incremented, and only
if it exceeds `MAX_PIPELINE_FAILURES` is `self.manager.needs_reconfigure` set.
The returned `Nat` is the final value of the local `failures` variable. -/
def exceptBranch (s : WState) (rest : List Ev) : WState × List Ev × Nat :=
  let failures := 0 + 1
  if failures > MAX_PIPELINE_FAILURES then
    ({ s with needs_reconfigure := true }, rest, failures)
  else (s, rest, failures)

/-- `Worker._pipeline_loop`: run the body under `try`, catching any exception
in the `except Exception` clause; a normal return leaves the local `failures`
at `0`.  No exception ever escapes this function.  The returned `Nat` is the
final value of the local `failures` variable (ghost observation). -/
def pipeline_loop (s : WState) (evs : List Ev) : WState × List Ev × Nat :=
  match pipelineBody s evs with
  | Except.error (s2, rest) => exceptBranch s2 rest
  | Except.ok (s2, rest, _) => (s2, rest, 0)

/-- `Worker.run`: `while self.manager.running: self._pipeline_loop()`.
`fuel` bounds the number of `_pipeline_loop` invocations observed. -/
def workerRun : WState → List Ev → Nat → WState
  | s, _, 0 => s
  | s, evs, fuel + 1 =>
      if s.running then
        let r := pipeline_loop s evs
        workerRun r.1 r.2.1 fuel
      else s

/-- One iteration of `WorkerManager.run`: if the manager is still running and
`needs_reconfigure` is set, invoke the `reconfigure` factory callback once and
set `running = False` (so the watcher exits); otherwise sleep and re-check. -/
def managerStep (s : WState) : WState :=
  if s.running then
    if s.needs_reconfigure then
      { s with reconfigure_calls := s.reconfigure_calls + 1, running := false }
    else s
  else s

/-- A round event that raises a transient error, for failure scenarios. -/
def errRound : Ev := Ev.round true false false false

/-- `n` consecutive `_pipeline_loop` attempts each of which fails with one
transient error during its capture loop. -/
def afterFailingAttempts (s : WState) : Nat → WState
  | 0 => s
  | n + 1 => (pipeline_loop (afterFailingAttempts s n) [errRound]).1

/-- `n` successive calls of the demand-marking prefix of `get_pcd`. -/
def iterGetPcdMark : Nat → WState → WState
  | 0, s => s
  | n + 1, s => iterGetPcdMark n (getPcdMark s)

/-- Number of point-cloud publishes in a trace. -/
def countPcd : List PubEv → Nat
  | [] => 0
  | PubEv.pcd :: tr => countPcd tr + 1
  | _ :: tr => countPcd tr

/-- Number of color publishes in a trace. -/
def countColor : List PubEv → Nat
  | [] => 0
  | PubEv.color :: tr => countColor tr + 1
  | _ :: tr => countColor tr

/-- Number of depth publishes in a trace. -/
def countDepth : List PubEv → Nat
  | [] => 0
  | PubEv.depth :: tr => countDepth tr + 1
  | _ :: tr => countDepth tr

/-! ## Helper lemmas -/

/-- The trace entries appended by one successful capture round. -/
def roundTrace (pcIncluded : Bool) (s : WState) (cAvail dAvail pAvail : Bool) : List PubEv :=
  (if s.user_wants_color && cAvail then [PubEv.color] else [])
    ++ (if s.user_wants_depth && dAvail then [PubEv.depth] else [])
    ++ (if s.user_wants_depth && pcIncluded && pAvail then [PubEv.pcd] else [])

theorem doRound_eq (pcIncluded : Bool) (s : WState) (cAvail dAvail pAvail : Bool) :
    doRound pcIncluded s cAvail dAvail pAvail
      = { s with trace := s.trace ++ roundTrace pcIncluded s cAvail dAvail pAvail } := by
  unfold doRound roundTrace
  by_cases h1 : (s.user_wants_color && cAvail) = true <;>
    by_cases h2 : (s.user_wants_depth && dAvail) = true <;>
      by_cases h3 : (s.user_wants_depth && pcIncluded && pAvail) = true <;>
        simp [h1, h2, h3]

theorem getPcdMark_trace (s : WState) : (getPcdMark s).trace = s.trace := by
  unfold getPcdMark
  split <;> rfl

theorem getPcdMark_idem (s : WState) : getPcdMark (getPcdMark s) = getPcdMark s := by
  unfold getPcdMark
  by_cases h : s.get_pcd_was_invoked = false <;> simp [h]

theorem exceptBranch_eq (s : WState) (rest : List Ev) :
    exceptBranch s rest = (s, rest, 1) := by
  unfold exceptBranch
  norm_num [MAX_PIPELINE_FAILURES]

theorem countPcd_append (a b : List PubEv) : countPcd (a ++ b) = countPcd a + countPcd b := by
  induction a with
  | nil => simp [countPcd]
  | cons x a ih => cases x <;> simp [countPcd, ih] <;> omega

theorem countColor_append (a b : List PubEv) : countColor (a ++ b) = countColor a + countColor b := by
  induction a with
  | nil => simp [countColor]
  | cons x a ih => cases x <;> simp [countColor, ih] <;> omega

theorem countDepth_append (a b : List PubEv) : countDepth (a ++ b) = countDepth a + countDepth b := by
  induction a with
  | nil => simp [countDepth]
  | cons x a ih => cases x <;> simp [countDepth, ih] <;> omega

/-- The capture loop only ever appends to the trace. -/
theorem runRounds_trace (snap pcIncluded : Bool) :
    ∀ (evs : List Ev) (s : WState),
      ∃ tr, (runRounds snap pcIncluded s evs).1.trace = s.trace ++ tr := by
  intro evs
  induction evs with
  | nil =>
      intro s
      refine ⟨[], ?_⟩
      unfold runRounds
      split
      · simp
      · split <;> simp
  | cons ev rest ih =>
      intro s
      unfold runRounds
      split
      · exact ⟨[], by simp⟩
      · split
        · exact ⟨[], by simp⟩
        · match ev with
          | Ev.stop =>
              obtain ⟨tr, htr⟩ := ih { s with running := false }
              exact ⟨tr, htr⟩
          | Ev.setDemand =>
              obtain ⟨tr, htr⟩ := ih (getPcdMark s)
              exact ⟨tr, by rw [htr, getPcdMark_trace]⟩
          | Ev.buildFail => exact ⟨[], by simp⟩
          | Ev.round err cA dA pA =>
              cases err with
              | true => exact ⟨[], by simp⟩
              | false =>
                  obtain ⟨tr, htr⟩ := ih (doRound pcIncluded s cA dA pA)
                  refine ⟨roundTrace pcIncluded s cA dA pA ++ tr, ?_⟩
                  show (runRounds snap pcIncluded (doRound pcIncluded s cA dA pA) rest).1.trace = _
                  rw [htr, doRound_eq]
                  simp

/-- The `try` body of `_pipeline_loop` (build, snapshot, capture loop)
as a single tuple-valued function, before exception classification. -/
def buildAndRun (s : WState) (evs : List Ev) : WState × List Ev × ExitKind :=
  runRounds s.get_pcd_was_invoked ((configure_pc s).isSome)
    { s with trace := s.trace ++ [PubEv.build ((configure_pc s).isSome)] } evs

theorem pipelineBody_eq (s : WState) (evs : List Ev)
    (hbf : ∀ rest, evs ≠ Ev.buildFail :: rest) :
    pipelineBody s evs =
      (match buildAndRun s evs with
        | (s2, rest, ExitKind.exn) => Except.error (s2, rest)
        | r => Except.ok r) := by
  unfold buildAndRun
  cases evs with
  | nil => rfl
  | cons ev rest =>
      cases ev with
      | buildFail => exact absurd rfl (hbf rest)
      | round err cA dA pA => rfl
      | setDemand => rfl
      | stop => rfl

/-- On any call whose event script does not begin with a build failure,
`_pipeline_loop` returns the capture-loop result, with the local failure
counter ending at `1` when an exception was caught and `0` otherwise. -/
theorem pipeline_loop_eq (s : WState) (evs : List Ev)
    (hbf : ∀ rest, evs ≠ Ev.buildFail :: rest) :
    pipeline_loop s evs =
      ((buildAndRun s evs).1, (buildAndRun s evs).2.1,
        if (buildAndRun s evs).2.2 = ExitKind.exn then 1 else 0) := by
  unfold pipeline_loop
  rw [pipelineBody_eq s evs hbf]
  rcases hr : buildAndRun s evs with ⟨s2, rest2, k⟩
  cases k <;> simp [exceptBranch_eq]

/-- A pipeline attempt that fails with a single transient error leaves every
field but the trace unchanged. -/
theorem pipeline_loop_errRound_state (s : WState) :
    (pipeline_loop s [errRound]).1
      = { s with trace := s.trace ++ [PubEv.build ((configure_pc s).isSome)] } := by
  rw [pipeline_loop_eq s [errRound] (by intro r h; simp [errRound] at h)]
  unfold buildAndRun runRounds
  by_cases h : s.running = false
  · simp [h]
  · simp [h, errRound]

theorem pipeline_loop_errRound (s : WState) (h : s.running = true) :
    pipeline_loop s [errRound]
      = ({ s with trace := s.trace ++ [PubEv.build ((configure_pc s).isSome)] }, [], 1) := by
  rw [pipeline_loop_eq s [errRound] (by intro r hh; simp [errRound] at hh)]
  unfold buildAndRun runRounds
  simp [h, errRound]

theorem afterFailingAttempts_fields (s : WState) (n : Nat) :
    (afterFailingAttempts s n).running = s.running
    ∧ (afterFailingAttempts s n).needs_reconfigure = s.needs_reconfigure
    ∧ (afterFailingAttempts s n).get_pcd_was_invoked = s.get_pcd_was_invoked
    ∧ (afterFailingAttempts s n).user_wants_color = s.user_wants_color
    ∧ (afterFailingAttempts s n).user_wants_depth = s.user_wants_depth := by
  induction n with
  | zero => exact ⟨rfl, rfl, rfl, rfl, rfl⟩
  | succ n ih =>
      obtain ⟨h1, h2, h3, h4, h5⟩ := ih
      unfold afterFailingAttempts
      rw [pipeline_loop_errRound_state]
      exact ⟨h1, h2, h3, h4, h5⟩

theorem publishSeq_concat {α : Type} (init : Slot α) (fs : List (α × Nat)) (a : α) (t : Nat) :
    publishSeq init (fs ++ [(a, t)]) = some ⟨a, t⟩ := by
  induction fs generalizing init with
  | nil => rfl
  | cons f fs ih =>
      rcases f with ⟨b, u⟩
      exact ih (publish init b u)

/-! ## Claim theorems -/

/-- Claim C10: every frame published to the depth-map slot has shape exactly
`(height, width)` from the worker's configuration: `_set_depth_map` resizes
any packet whose frame shape differs before storing it, so readers never
observe a depth frame of any other shape. -/
theorem c10_depth_shape (height width : Nat) (packetFrame : DepthShape) (t : Nat) :
    (set_depth_map height width packetFrame t).np_array = ⟨height, width⟩ := by
  rcases packetFrame with ⟨r, c⟩
  unfold set_depth_map cv2_resize
  dsimp only
  split
  · rfl
  · next h =>
      rw [not_ne_iff, Prod.mk.injEq] at h
      obtain ⟨rfl, rfl⟩ := h
      rfl

/-- Claim C8 counterexample: a 48 MB point-cloud payload (2000 × 2000 × 3
elements of 4 bytes) exceeds the 4194304-byte ceiling, yet after `_set_pcd`
the stored frame's payload (12 MB, the single 2× subsample) still exceeds the
ceiling — refuting "its payload is at most the ceiling" for every oversized
payload. -/
theorem c8_counterexample :
    (⟨2000, 2000, 3, 4⟩ : PcdArray).nbytes > MAX_GRPC_MESSAGE_BYTE_COUNT
    ∧ (set_pcd ⟨2000, 2000, 3, 4⟩ 0).np_array.nbytes > MAX_GRPC_MESSAGE_BYTE_COUNT := by
  decide

/-- Claim C8 (amended): payloads at or below the ceiling are stored unchanged;
a payload exceeding the ceiling is stored as the uniform 2× row/column
subsample, and that single subsampling step brings the payload under the
ceiling only when the raw payload is at most four times the ceiling (shown
here for even row and column counts); larger payloads remain oversized. -/
theorem c8_amended (a : PcdArray) (t : Nat) :
    (a.nbytes ≤ MAX_GRPC_MESSAGE_BYTE_COUNT → (set_pcd a t).np_array = a)
    ∧ (a.nbytes > MAX_GRPC_MESSAGE_BYTE_COUNT → (set_pcd a t).np_array = a.subsample2)
    ∧ (a.nbytes > MAX_GRPC_MESSAGE_BYTE_COUNT →
        a.nbytes ≤ 4 * MAX_GRPC_MESSAGE_BYTE_COUNT → 2 ∣ a.rows → 2 ∣ a.cols →
          (set_pcd a t).np_array.nbytes ≤ MAX_GRPC_MESSAGE_BYTE_COUNT) := by
  refine ⟨?_, ?_, ?_⟩
  · intro hle
    unfold set_pcd set_pcd_arr
    rw [if_neg (by omega)]
  · intro hgt
    unfold set_pcd set_pcd_arr
    rw [if_pos hgt]
  · intro hgt h4 ⟨r2, hr⟩ ⟨c2, hc⟩
    have hstored : (set_pcd a t).np_array = a.subsample2 := by
      unfold set_pcd set_pcd_arr
      rw [if_pos hgt]
    rw [hstored]
    rcases a with ⟨r, c, ch, i⟩
    simp only [PcdArray.subsample2, PcdArray.nbytes] at *
    subst hr hc
    have h1 : (2 * r2 + 1) / 2 = r2 := by omega
    have h2 : (2 * c2 + 1) / 2 = c2 := by omega
    rw [h1, h2]
    have key : 2 * r2 * (2 * c2) * ch * i = 4 * (r2 * c2 * ch * i) := by ring
    rw [key] at h4
    exact Nat.le_of_mul_le_mul_left h4 (by norm_num)

/-- Claim C8 witness: a 16 MB payload (1000 × 1000 × 4 × 4 bytes) exceeds the
ceiling, has even dimensions and is within four times the ceiling, so the
stored subsampled payload is at most the ceiling. -/
theorem c8_witness :
    (set_pcd ⟨1000, 1000, 4, 4⟩ 7).np_array.nbytes ≤ MAX_GRPC_MESSAGE_BYTE_COUNT :=
  (c8_amended ⟨1000, 1000, 4, 4⟩ 7).2.2 (by decide) (by decide) (by decide) (by decide)

/-- Claim C7: for every sequence of publishes into an initially empty slot,
a read returns either empty, or exactly the whole `CapturedData` — array and
timestamp together — of the most recently completed publish; both fields come
from the same publish, never a mix of two. -/
theorem c7_read_last_publish {α : Type} (fs : List (α × Nat)) :
    readSlot (publishSeq (none : Slot α) fs)
      = fs.getLast?.map (fun p => ⟨p.1, p.2⟩) := by
  rcases fs.eq_nil_or_concat with rfl | ⟨l, ⟨a, t⟩, rfl⟩
  · rfl
  · rw [List.concat_eq_append, List.getLast?_concat]
    unfold readSlot
    rw [publishSeq_concat]
    rfl

/-- Claim C6: marking point-cloud demand is idempotent and monotonic — for
every `n ≥ 1`, calling the `get_pcd` demand-marking step `n` times leaves the
state exactly as one call does; one call turns the flag true; and once the
flag is true a further call changes nothing (no re-trigger, never true→false). -/
theorem c6_mark_idempotent (s : WState) (n : Nat) (h : 1 ≤ n) :
    iterGetPcdMark n s = getPcdMark s
    ∧ (getPcdMark s).get_pcd_was_invoked = true
    ∧ (s.get_pcd_was_invoked = true → getPcdMark s = s) := by
  refine ⟨?_, ?_, ?_⟩
  · obtain ⟨m, rfl⟩ : ∃ m, n = m + 1 := ⟨n - 1, by omega⟩
    clear h
    induction m generalizing s with
    | zero => rfl
    | succ k ih =>
        show iterGetPcdMark (k + 1) (getPcdMark s) = getPcdMark s
        rw [ih (getPcdMark s), getPcdMark_idem]
  · unfold getPcdMark
    by_cases hf : s.get_pcd_was_invoked = false
    · simp [hf]
    · simp only [if_neg hf]
      exact Bool.not_eq_false _ |>.mp hf
  · intro ht
    unfold getPcdMark
    simp [ht]

/-- Claim C6 witness: three calls on a fresh worker equal one call, the flag
is true after it, and a further call on the marked state changes nothing. -/
theorem c6_witness :
    iterGetPcdMark 3 (initWorker true true) = getPcdMark (initWorker true true)
    ∧ (getPcdMark (initWorker true true)).get_pcd_was_invoked = true
    ∧ ((initWorker true true).get_pcd_was_invoked = true
        → getPcdMark (initWorker true true) = initWorker true true) :=
  c6_mark_idempotent (initWorker true true) 3 (by decide)

/-- Claim C5: once `stop()` has set `manager.running` to false, any pending or
future accessor call resolves — at latest at its first check after the stop,
i.e. within one polling interval — and when no frame was ever published it
resolves with the `None` "stopped" result rather than a frame; no call keeps
waiting past that check. -/
theorem c5_accessor_stops {α : Type} (pre : List (AccessorObs α)) (o : AccessorObs α)
    (post : List (AccessorObs α)) (hstop : o.2 = false) :
    ∃ r, accessorRun (pre ++ o :: post) = some r
      ∧ accessorRun (pre ++ [o]) = some r
      ∧ ((∀ x ∈ pre, x.1 = none) → o.1 = none → r = none) := by
  induction pre with
  | nil =>
      rcases o with ⟨slot, running⟩
      simp only at hstop
      subst hstop
      refine ⟨slot, ?_, ?_, ?_⟩
      · show accessorRun ((slot, false) :: post) = some slot
        unfold accessorRun
        simp
      · show accessorRun ((slot, false) :: []) = some slot
        unfold accessorRun
        simp
      · intro _ h1
        exact h1
  | cons x pre ih =>
      rcases x with ⟨sl, ru⟩
      by_cases hc : (sl.isNone && ru) = true
      · obtain ⟨r, h1, h2, h3⟩ := ih
        refine ⟨r, ?_, ?_, ?_⟩
        · show accessorRun ((sl, ru) :: (pre ++ o :: post)) = some r
          unfold accessorRun
          rw [if_pos hc]
          exact h1
        · show accessorRun ((sl, ru) :: (pre ++ [o])) = some r
          unfold accessorRun
          rw [if_pos hc]
          exact h2
        · intro hall ho
          exact h3 (fun y hy => hall y (List.mem_cons_of_mem _ hy)) ho
      · refine ⟨sl, ?_, ?_, ?_⟩
        · show accessorRun ((sl, ru) :: (pre ++ o :: post)) = some sl
          unfold accessorRun
          rw [if_neg hc]
        · show accessorRun ((sl, ru) :: (pre ++ [o])) = some sl
          unfold accessorRun
          rw [if_neg hc]
        · intro hall _
          exact hall (sl, ru) (List.mem_cons_self _ _)

/-- Claim C5 witness: a call that has polled once while the worker was alive
with an empty slot, then observes the stopped worker, resolves right there
with the `None` "stopped" result. -/
theorem c5_witness :
    ∃ r, accessorRun ([((none : Option Nat), true)] ++ (none, false) :: []) = some r
      ∧ accessorRun ([((none : Option Nat), true)] ++ [(none, false)]) = some r
      ∧ ((∀ x ∈ [((none : Option Nat), true)], x.1 = none)
          → (none, false).1 = (none : Option Nat) → r = none) :=
  c5_accessor_stops [((none : Option Nat), true)] (none, false) [] rfl

/-- Claim C3 counterexample: with depth disabled in the configuration, the
point-cloud demand flag is true after a `get_pcd` call, yet `_configure_pc`
still builds no point-cloud stage — refuting "for every worker configuration
(including depth disabled)". -/
theorem c3_counterexample :
    (getPcdMark (initWorker true false)).get_pcd_was_invoked = true
    ∧ configure_pc (getPcdMark (initWorker true false)) = none := by
  decide

/-- Claim C3 (amended): during every BUILDING phase (every `_pipeline_loop`
call that gets past pipeline construction), the build event records the
point-cloud stage as included exactly when depth is enabled in the
configuration AND the demand flag is true at that moment; with depth disabled
the stage is never built. -/
theorem c3_amended (s : WState) (evs : List Ev)
    (hbf : ∀ rest, evs ≠ Ev.buildFail :: rest) :
    (∃ tr, (pipeline_loop s evs).1.trace
        = s.trace ++ PubEv.build ((configure_pc s).isSome) :: tr)
    ∧ ((configure_pc s).isSome = true
        ↔ (s.user_wants_depth = true ∧ s.get_pcd_was_invoked = true)) := by
  constructor
  · rw [pipeline_loop_eq s evs hbf]
    unfold buildAndRun
    obtain ⟨tr, htr⟩ := runRounds_trace s.get_pcd_was_invoked ((configure_pc s).isSome) evs
      { s with trace := s.trace ++ [PubEv.build ((configure_pc s).isSome)] }
    refine ⟨tr, ?_⟩
    rw [htr]
    simp
  · unfold configure_pc
    by_cases h1 : s.user_wants_depth = true <;> by_cases h2 : s.get_pcd_was_invoked = true <;>
      simp [h1, h2]

/-- Claim C3 witness: on a fresh worker with depth enabled and the flag not
yet requested, the build records the stage as excluded, matching the iff. -/
theorem c3_witness :
    (∃ tr, (pipeline_loop (initWorker true true) []).1.trace
        = (initWorker true true).trace
            ++ PubEv.build ((configure_pc (initWorker true true)).isSome) :: tr)
    ∧ ((configure_pc (initWorker true true)).isSome = true
        ↔ ((initWorker true true).user_wants_depth = true
            ∧ (initWorker true true).get_pcd_was_invoked = true)) :=
  c3_amended (initWorker true true) [] (fun r h => List.noConfusion h)

/-- Claim C2 counterexample: two consecutive failing attempts leave the local
failure counter at `1` at the second attempt, not `2` — the counter is not
preserved across build attempts, refuting "N consecutive failing attempts
yield a counter value of N". -/
theorem c2_counterexample :
    (pipeline_loop (afterFailingAttempts (initWorker true true) 1) [errRound]).2.2 = 1
    ∧ ¬ (pipeline_loop (afterFailingAttempts (initWorker true true) 1) [errRound]).2.2 = 2 := by
  decide

/-- Claim C2 (amended): on a transient failure the acquisition loop does
return to BUILDING (the worker stays running and no reconfiguration is
requested), but the failure counter is a local of `_pipeline_loop`, reset at
the start of each build attempt, and at most one transient error is caught per
attempt — so every one of `n + 1` consecutive failing attempts ends with
counter value `1`, never `n + 1`. -/
theorem c2_amended (s : WState) (h : s.running = true) (n : Nat) :
    (pipeline_loop (afterFailingAttempts s n) [errRound]).2.2 = 1
    ∧ (afterFailingAttempts s (n + 1)).running = true
    ∧ (afterFailingAttempts s (n + 1)).needs_reconfigure = s.needs_reconfigure := by
  have hr : (afterFailingAttempts s n).running = true := by
    rw [(afterFailingAttempts_fields s n).1, h]
  refine ⟨?_, ?_, ?_⟩
  · rw [pipeline_loop_errRound _ hr]
  · rw [(afterFailingAttempts_fields s (n + 1)).1, h]
  · exact (afterFailingAttempts_fields s (n + 1)).2.1

/-- Claim C2 witness: the fourth consecutive failing attempt on a fresh worker
still ends with counter value `1`, with the worker still building and no
reconfiguration requested. -/
theorem c2_witness :
    (pipeline_loop (afterFailingAttempts (initWorker true true) 3) [errRound]).2.2 = 1
    ∧ (afterFailingAttempts (initWorker true true) 4).running = true
    ∧ (afterFailingAttempts (initWorker true true) 4).needs_reconfigure
        = (initWorker true true).needs_reconfigure :=
  c2_amended (initWorker true true) rfl 3

/-- Claim C1 (code bug, evaluated at the failing input): after 4 consecutive
transient errors in the capture loop, the reconfiguration-requested flag is
still false, the worker has not reached STOPPED (it is still running and
rebuilding), and the manager never invokes the replacement factory — because
`failures` is a local of `_pipeline_loop` reset to `0` at each call and the
`try`/`except` catches at most one exception per call, so
`failures > MAX_PIPELINE_FAILURES` is never true. -/
theorem c1_code_bug_eval :
    (workerRun (initWorker true true) [errRound, errRound, errRound, errRound] 4).needs_reconfigure
        = false
    ∧ (workerRun (initWorker true true) [errRound, errRound, errRound, errRound] 4).running = true
    ∧ (managerStep (managerStep (managerStep
        (workerRun (initWorker true true) [errRound, errRound, errRound, errRound] 4)))).reconfigure_calls
        = 0 := by
  decide

/-- Claim C9: no exception from the device boundary ever escapes the pipeline
loop: whenever the `try` body of `_pipeline_loop` raises (a build failure or a
failure of any read/transform/publish step), the loop returns normally with
the error absorbed (local failure count `1`, the worker left running as it
was), and `Worker.run` just proceeds to its next iteration — retry in place —
rather than re-raising to a consumer. -/
theorem c9_no_propagation (s : WState) (evs : List Ev) (er : WState × List Ev)
    (h : pipelineBody s evs = Except.error er) (n : Nat) :
    pipeline_loop s evs = (er.1, er.2, 1)
    ∧ (s.running = true → workerRun s evs (n + 1) = workerRun er.1 er.2 n) := by
  rcases er with ⟨s2, rest⟩
  have h1 : pipeline_loop s evs = (s2, rest, 1) := by
    unfold pipeline_loop
    rw [h]
    exact exceptBranch_eq s2 rest
  refine ⟨h1, ?_⟩
  intro hrun
  conv_lhs => rw [workerRun]
  rw [if_pos (by rw [hrun])]
  rw [h1]

/-- Claim C9 witness: a build failure on a fresh worker is absorbed: the loop
returns normally with the state intact and `run` continues with the next
attempt. -/
theorem c9_witness :
    pipeline_loop (initWorker true true) [Ev.buildFail] = (initWorker true true, [], 1)
    ∧ ((initWorker true true).running = true
        → workerRun (initWorker true true) [Ev.buildFail] 2
            = workerRun (initWorker true true) [] 1) :=
  c9_no_propagation (initWorker true true) [Ev.buildFail] (initWorker true true, []) rfl 1

/-- A capture loop running a pipeline built without the point-cloud stage
never publishes point-cloud data: the `_set_pcd` callback was never
registered. -/
theorem countPcd_runRounds_noStage (snap : Bool) (s : WState) (evs : List Ev) :
    countPcd ((runRounds snap false s evs).1.trace) = countPcd s.trace := by
  induction evs generalizing s with
  | nil =>
      unfold runRounds
      split
      · rfl
      · split <;> rfl
  | cons ev rest ih =>
      unfold runRounds
      split
      · rfl
      · split
        · rfl
        · match ev with
          | Ev.stop => exact ih { s with running := false }
          | Ev.setDemand => rw [ih (getPcdMark s), getPcdMark_trace]
          | Ev.buildFail => rfl
          | Ev.round err cA dA pA =>
              cases err with
              | true => rfl
              | false =>
                  show countPcd ((runRounds snap false (doRound false s cA dA pA) rest).1.trace)
                      = countPcd s.trace
                  rw [ih (doRound false s cA dA pA), doRound_eq, countPcd_append]
                  unfold roundTrace
                  split <;> split <;> simp [countPcd, countPcd_append]

/-- Claim C4 counterexample: on a worker configured with depth disabled, the
demand flag flips from false to true while RUNNING, the loop does exit its
capture cycle and rebuild — but the rebuilt pipeline does not include the
point-cloud stage (both build events record `false`), refuting "rebuilds the
pipeline to include the point-cloud stage". -/
theorem c4_counterexample :
    (workerRun (initWorker true false) [Ev.setDemand, Ev.round false true false false] 2).trace
        = [PubEv.build false, PubEv.build false, PubEv.color]
    ∧ (workerRun (initWorker true false)
        [Ev.setDemand, Ev.round false true false false] 2).get_pcd_was_invoked = true := by
  decide

/-- Claim C4 (amended): provided depth is enabled in the configuration — if
the point-cloud demand flag flips from false to true while the capture loop is
RUNNING, the loop exits at the next round check without processing that round;
the subsequent rebuild includes the point-cloud stage; point-cloud data is
never published by a pipeline built without the stage (so any point-cloud
publish comes after such a rebuild); and in any pipeline a successful round
still publishes color and depth as configured, so their publishing resumes
unaffected after the rebuild. -/
theorem c4_amended (s : WState) (err cA dA pA : Bool) (rest evs2 : List Ev)
    (hrun : s.running = true) (hdepth : s.user_wants_depth = true)
    (hflag : s.get_pcd_was_invoked = true)
    (hbf : ∀ r, evs2 ≠ Ev.buildFail :: r) :
    (∀ pcIncluded, runRounds false pcIncluded s (Ev.round err cA dA pA :: rest)
        = (s, Ev.round err cA dA pA :: rest, ExitKind.demandChange))
    ∧ (∃ tr, (pipeline_loop s evs2).1.trace = s.trace ++ PubEv.build true :: tr)
    ∧ (∀ (snap : Bool) (s2 : WState) (evs3 : List Ev),
        countPcd ((runRounds snap false s2 evs3).1.trace) = countPcd s2.trace)
    ∧ (∀ (pcIncluded : Bool) (s2 : WState) (pA2 : Bool),
        s2.user_wants_color = true → s2.user_wants_depth = true →
          countColor ((doRound pcIncluded s2 true true pA2).trace) = countColor s2.trace + 1
          ∧ countDepth ((doRound pcIncluded s2 true true pA2).trace)
              = countDepth s2.trace + 1) := by
  refine ⟨?_, ?_, ?_, ?_⟩
  · intro pcIncluded
    unfold runRounds
    rw [if_neg (by rw [hrun]; simp), if_pos (by rw [hflag]; simp)]
  · have hpc : (configure_pc s).isSome = true := by
      unfold configure_pc
      simp [hdepth, hflag]
    rw [pipeline_loop_eq s evs2 hbf]
    unfold buildAndRun
    obtain ⟨tr, htr⟩ := runRounds_trace s.get_pcd_was_invoked ((configure_pc s).isSome) evs2
      { s with trace := s.trace ++ [PubEv.build ((configure_pc s).isSome)] }
    refine ⟨tr, ?_⟩
    rw [htr]
    simp [hpc]
  · exact fun snap s2 evs3 => countPcd_runRounds_noStage snap s2 evs3
  · intro pcIncluded s2 pA2 hcol hdep
    rw [doRound_eq]
    dsimp only
    unfold roundTrace
    rw [if_pos (by simp [hcol]), if_pos (by simp [hdep])]
    constructor
    · rw [countColor_append, countColor_append, countColor_append]
      split <;> simp [countColor]
    · rw [countDepth_append, countDepth_append, countDepth_append]
      split <;> simp [countDepth]

/-- Claim C4 witness: on a worker with depth enabled whose flag has just been
requested, the flipped flag breaks the loop before the pending round, the next
build includes the stage, stage-less pipelines publish no point clouds, and a
successful round still publishes color and depth. -/
theorem c4_witness :
    (∀ pcIncluded, runRounds false pcIncluded (getPcdMark (initWorker true true))
          (Ev.round false false false false :: [])
        = (getPcdMark (initWorker true true), Ev.round false false false false :: [],
            ExitKind.demandChange))
    ∧ (∃ tr, (pipeline_loop (getPcdMark (initWorker true true)) []).1.trace
        = (getPcdMark (initWorker true true)).trace ++ PubEv.build true :: tr)
    ∧ (∀ (snap : Bool) (s2 : WState) (evs3 : List Ev),
        countPcd ((runRounds snap false s2 evs3).1.trace) = countPcd s2.trace)
    ∧ (∀ (pcIncluded : Bool) (s2 : WState) (pA2 : Bool),
        s2.user_wants_color = true → s2.user_wants_depth = true →
          countColor ((doRound pcIncluded s2 true true pA2).trace) = countColor s2.trace + 1
          ∧ countDepth ((doRound pcIncluded s2 true true pA2).trace)
              = countDepth s2.trace + 1) :=
  c4_amended (getPcdMark (initWorker true true)) false false false false [] []
    rfl rfl rfl (fun r h => List.noConfusion h)

end OakWorker
